import Mathlib

/-!
Verification of the go-nanoVNA hardware-abstraction and protocol core
(nanovna.go) against its natural-language specification.

The Go source is shallowly embedded: pure functions become Lean functions,
the serial transport becomes explicit data (a stream of read results, or a
map from command text to an optional error), float64 values become exact
rationals (no claim depends on rounding), and Go errors become Option or
Except values mirroring the distinct error-construction sites of the source.
-/

set_option maxRecDepth 4000

namespace NanoVNA

/-- HardwareVariant mirrors the Go enumeration (nanovna.go lines 17-27). -/
inductive HardwareVariant where
  | Unknown
  | V1
  | VH
  | V2
  | V2Plus
  | V2Plus4
  | SAA2
  | Tinysa
  | LiteVNA
  deriving DecidableEq

/-- FrequencyRange mirrors the Go struct; float64 bounds are modelled as
exact rationals (every bound in the registry is an integer far below 2^53,
so float64 comparison with an integer argument is exact). -/
structure FrequencyRange where
  MinHz : ℚ
  MaxHz : ℚ
  deriving DecidableEq

/-- CommandSet mirrors the Go struct of per-variant command templates. -/
structure CommandSet where
  SweepCommand : String
  FreqCommand : String
  DataCommand : String
  InfoCommand : String
  VersionCommand : String
  CalibrationSave : String
  CalibrationLoad : String
  PromptPattern : String
  deriving DecidableEq

/-- HardwareCapabilities mirrors the Go struct of boolean feature flags. -/
structure HardwareCapabilities where
  HasS21 : Bool
  HasTimeDomain : Bool
  HasCalibration : Bool
  HasMultiplePorts : Bool
  HasGenerator : Bool
  HasSpectrumMode : Bool
  deriving DecidableEq

/-- HardwareInfo mirrors the Go aggregate struct. -/
structure HardwareInfo where
  Variant : HardwareVariant
  Range : FrequencyRange
  MaxSweepPoints : Int
  SupportedPorts : List String
  Commands : CommandSet
  Capabilities : HardwareCapabilities
  deriving DecidableEq

/-- String returns the display name of a variant (Go method HardwareVariant.String). -/
def variantString : HardwareVariant → String
  | .V1 => "NanoVNA v1"
  | .VH => "NanoVNA-H"
  | .V2 => "NanoVNA v2"
  | .V2Plus => "NanoVNA v2 Plus"
  | .V2Plus4 => "NanoVNA v2 Plus4"
  | .SAA2 => "SAA2"
  | .Tinysa => "TinySA"
  | .LiteVNA => "LiteVNA"
  | .Unknown => "Unknown"

/-- getHardwareInfo mirrors the Go registry switch (nanovna.go lines 92-271).
The switch has explicit cases only for V1, VH, V2, V2Plus, V2Plus4 and
Tinysa; Unknown, SAA2 and LiteVNA all fall to the default branch. -/
def getHardwareInfo : HardwareVariant → HardwareInfo
  | .V1 =>
    { Variant := .V1
      Range := { MinHz := 50000, MaxHz := 900000000 }
      MaxSweepPoints := 101
      SupportedPorts := ["S11", "S21"]
      Commands :=
        { SweepCommand := "sweep %d %d %d", FreqCommand := "frequencies"
          DataCommand := "data %d", InfoCommand := "info"
          VersionCommand := "version", CalibrationSave := "save %d"
          CalibrationLoad := "recall %d", PromptPattern := "ch>" }
      Capabilities :=
        { HasS21 := true, HasTimeDomain := false, HasCalibration := true
          HasMultiplePorts := false, HasGenerator := false, HasSpectrumMode := false } }
  | .VH =>
    { Variant := .VH
      Range := { MinHz := 50000, MaxHz := 1500000000 }
      MaxSweepPoints := 201
      SupportedPorts := ["S11", "S21"]
      Commands :=
        { SweepCommand := "sweep %d %d %d", FreqCommand := "frequencies"
          DataCommand := "data %d", InfoCommand := "info"
          VersionCommand := "version", CalibrationSave := "save %d"
          CalibrationLoad := "recall %d", PromptPattern := "ch>" }
      Capabilities :=
        { HasS21 := true, HasTimeDomain := true, HasCalibration := true
          HasMultiplePorts := false, HasGenerator := true, HasSpectrumMode := false } }
  | .V2 =>
    { Variant := .V2
      Range := { MinHz := 50000, MaxHz := 3000000000 }
      MaxSweepPoints := 4000
      SupportedPorts := ["S11", "S21"]
      Commands :=
        { SweepCommand := "sweep %d %d %d", FreqCommand := "freq"
          DataCommand := "data %d", InfoCommand := "info"
          VersionCommand := "version", CalibrationSave := "save %d"
          CalibrationLoad := "recall %d", PromptPattern := "2>" }
      Capabilities :=
        { HasS21 := true, HasTimeDomain := true, HasCalibration := true
          HasMultiplePorts := false, HasGenerator := true, HasSpectrumMode := true } }
  | .V2Plus =>
    { Variant := .V2Plus
      Range := { MinHz := 50000, MaxHz := 6000000000 }
      MaxSweepPoints := 4000
      SupportedPorts := ["S11", "S21"]
      Commands :=
        { SweepCommand := "sweep %d %d %d", FreqCommand := "freq"
          DataCommand := "data %d", InfoCommand := "info"
          VersionCommand := "version", CalibrationSave := "save %d"
          CalibrationLoad := "recall %d", PromptPattern := "2>" }
      Capabilities :=
        { HasS21 := true, HasTimeDomain := true, HasCalibration := true
          HasMultiplePorts := false, HasGenerator := true, HasSpectrumMode := true } }
  | .V2Plus4 =>
    { Variant := .V2Plus4
      Range := { MinHz := 50000, MaxHz := 6000000000 }
      MaxSweepPoints := 4000
      SupportedPorts := ["S11", "S21", "S12", "S22"]
      Commands :=
        { SweepCommand := "sweep %d %d %d", FreqCommand := "freq"
          DataCommand := "data %d", InfoCommand := "info"
          VersionCommand := "version", CalibrationSave := "save %d"
          CalibrationLoad := "recall %d", PromptPattern := "2>" }
      Capabilities :=
        { HasS21 := true, HasTimeDomain := true, HasCalibration := true
          HasMultiplePorts := true, HasGenerator := true, HasSpectrumMode := true } }
  | .Tinysa =>
    { Variant := .Tinysa
      Range := { MinHz := 100000, MaxHz := 960000000 }
      MaxSweepPoints := 500
      SupportedPorts := ["S11"]
      Commands :=
        { SweepCommand := "sweep %d %d %d", FreqCommand := "frequencies"
          DataCommand := "data %d", InfoCommand := "info"
          VersionCommand := "version", CalibrationSave := "save %d"
          CalibrationLoad := "recall %d", PromptPattern := "ch>" }
      Capabilities :=
        { HasS21 := false, HasTimeDomain := false, HasCalibration := true
          HasMultiplePorts := false, HasGenerator := true, HasSpectrumMode := true } }
  | _ =>
    { Variant := .Unknown
      Range := { MinHz := 50000, MaxHz := 900000000 }
      MaxSweepPoints := 101
      SupportedPorts := ["S11"]
      Commands :=
        { SweepCommand := "sweep %d %d %d", FreqCommand := "frequencies"
          DataCommand := "data %d", InfoCommand := "info"
          VersionCommand := "version", CalibrationSave := "save %d"
          CalibrationLoad := "recall %d", PromptPattern := "ch>" }
      Capabilities :=
        { HasS21 := false, HasTimeDomain := false, HasCalibration := true
          HasMultiplePorts := false, HasGenerator := false, HasSpectrumMode := false } }

/-- IsPortSupported mirrors the Go linear scan over SupportedPorts. -/
def isPortSupported (info : HardwareInfo) (port : String) : Bool :=
  info.SupportedPorts.any (fun p => p = port)

/-! String helpers mirroring the Go standard-library functions the source
uses. They operate on the character list of a String; only the ASCII
behaviour matters, since the protocol text is ASCII. -/

/-- listContainsSub l sub is true when sub occurs contiguously in l
(strings.Contains on character lists). -/
def listContainsSub : List Char → List Char → Bool
  | _, [] => true
  | [], _ :: _ => false
  | a :: t, b :: u => ((b :: u).isPrefixOf (a :: t)) || listContainsSub t (b :: u)

/-- containsSub mirrors strings.Contains. -/
def containsSub (s sub : String) : Bool :=
  listContainsSub s.data sub.data

/-- goStartsWith mirrors strings.HasPrefix. -/
def goStartsWith (s pre : String) : Bool :=
  pre.data.isPrefixOf s.data

/-- isGoSpace is the ASCII part of unicode.IsSpace (the characters the
protocol text can contain). -/
def isGoSpace (c : Char) : Bool :=
  c = ' ' || c = '\t' || c = '\n' || c = '\x0b' || c = '\x0c' || c = '\r'

/-- goTrimSpace mirrors strings.TrimSpace on ASCII text. -/
def goTrimSpace (s : String) : String :=
  ⟨((s.data.dropWhile isGoSpace).reverse.dropWhile isGoSpace).reverse⟩

/-- fieldsAux accumulates the current field (reversed) while scanning. -/
def fieldsAux : List Char → List Char → List (List Char)
  | [], acc => if acc = [] then [] else [acc.reverse]
  | c :: t, acc =>
    if isGoSpace c then
      if acc = [] then fieldsAux t [] else acc.reverse :: fieldsAux t []
    else fieldsAux t (c :: acc)

/-- goFields mirrors strings.Fields: split around runs of whitespace. -/
def goFields (s : String) : List String :=
  (fieldsAux s.data []).map (fun l => ⟨l⟩)

/-- goToLower mirrors strings.ToLower on ASCII text. -/
def goToLower (s : String) : String :=
  ⟨s.data.map (fun c => if 'A' ≤ c ∧ c ≤ 'Z' then Char.ofNat (c.toNat + 32) else c)⟩

/-- splitCharAux splits at every occurrence of the separator character. -/
def splitCharAux (sep : Char) : List Char → List Char → List String
  | [], acc => [⟨acc.reverse⟩]
  | c :: t, acc =>
    if c = sep then (⟨acc.reverse⟩ : String) :: splitCharAux sep t []
    else splitCharAux sep t (c :: acc)

/-- goSplitChar mirrors strings.Split with a one-character separator. -/
def goSplitChar (s : String) (sep : Char) : List String :=
  splitCharAux sep s.data []

/-! Model of strconv.ParseFloat(s, 64). Only parse success or failure and
the exact decimal value matter to the claims, so the value is kept as an
exact rational; float64 rounding, ErrRange rejection of overflowing
values, hexadecimal mantissas and digit-separating underscores are not
modelled (no claim touches them, and no protocol line uses them). -/

/-- GoFloat is a parsed float64: a finite value (exact), an infinity, or NaN. -/
inductive GoFloat where
  | num (q : ℚ)
  | inf (neg : Bool)
  | nan
  deriving DecidableEq

/-- digitsVal reads a run of decimal digits as a natural number. -/
def digitsVal (l : List Char) : ℕ :=
  l.foldl (fun a c => a * 10 + (c.toNat - 48)) 0

/-- parseGoFloat mirrors strconv.ParseFloat(s, 64): optional sign, then
inf and infinity (signed, case-insensitive) or nan (unsigned), or else a
decimal mantissa with at least one digit, an optional fraction and an
optional complete exponent, with the whole string consumed. -/
def parseGoFloat (s : String) : Option GoFloat :=
  let l := (goToLower s).data
  let sgn : Bool × List Char :=
    match l with
    | '+' :: t => (false, t)
    | '-' :: t => (true, t)
    | _ => (false, l)
  let neg := sgn.1
  let l1 := sgn.2
  if l1 = ['i', 'n', 'f'] ∨ l1 = "infinity".data then some (.inf neg)
  else if l = ['n', 'a', 'n'] then some .nan
  else
    let ip := l1.takeWhile Char.isDigit
    let r1 := l1.dropWhile Char.isDigit
    let afterDot : List Char := match r1 with | '.' :: t => t | _ => []
    let hasDot : Bool := match r1 with | '.' :: _ => true | _ => false
    let fp := afterDot.takeWhile Char.isDigit
    let r2 := if hasDot then afterDot.dropWhile Char.isDigit else r1
    if ip.length + fp.length = 0 then none
    else
      let m : ℕ := digitsVal ip * 10 ^ fp.length + digitsVal fp
      let mnum : ℤ := if neg then -(m : ℤ) else (m : ℤ)
      let mden : ℕ := 10 ^ fp.length
      match r2 with
      | [] => some (.num (mkRat mnum mden))
      | 'e' :: r3 =>
        let esgn : Bool × List Char :=
          match r3 with
          | '+' :: t => (false, t)
          | '-' :: t => (true, t)
          | _ => (false, r3)
        let ed := esgn.2.takeWhile Char.isDigit
        let r5 := esgn.2.dropWhile Char.isDigit
        if ed.length = 0 ∨ r5 ≠ [] then none
        else if esgn.1 then some (.num (mkRat mnum (mden * 10 ^ digitsVal ed)))
        else some (.num (mkRat (mnum * 10 ^ digitsVal ed) mden))
      | _ => none

/-! Model of Device.sendCommand (nanovna.go lines 680-727). The serial
transport is a stream of read results indexed by read number: read 0 is
consumed by the initial buffer drain, the read loop consumes the rest.
A chunk of length zero models a read returning n = 0 without error. -/

/-- ReadResult is one transport read: a chunk of bytes or an error text. -/
inductive ReadResult where
  | chunk (s : String)
  | err (e : String)
  deriving DecidableEq

/-- maxAttempts is the fixed bound on read-loop iterations in sendCommand. -/
def maxAttempts : ℕ := 10

/-- sendLoop is the read loop of sendCommand: on an error whose text
contains "timeout" with bytes already accumulated it stops normally,
any other error is returned with the accumulated text; a non-empty chunk
is appended and the loop stops when that chunk contains the literal
"ch>"; otherwise it continues until the attempt budget is spent. -/
def sendLoop (reads : ℕ → ReadResult) : ℕ → ℕ → String → String × Option String
  | 0, _, response => (response, none)
  | k + 1, i, response =>
    match reads i with
    | .err e =>
      if containsSub e "timeout" = true ∧ 0 < response.length then (response, none)
      else (response, some e)
    | .chunk c =>
      if 0 < c.length then
        if containsSub c "ch>" = true then (response ++ c, none)
        else sendLoop reads k (i + 1) (response ++ c)
      else sendLoop reads k (i + 1) response

/-- sendCommand mirrors Device.sendCommand: fails when no transport is
open, returns a wrapped write error, and otherwise drains one read and
runs the read loop for at most maxAttempts attempts. -/
def sendCommand (connected : Bool) (writeErr : Option String) (reads : ℕ → ReadResult)
    (cmd : String) : String × Option String :=
  if connected then
    match writeErr with
    | some e => ("", some ("failed to write command: " ++ e))
    | none => sendLoop (fun i => reads (i + 1)) maxAttempts 0 ""
  else ("", some "device not open")

/-! Model of Device.SetSweepConfig (nanovna.go lines 497-549). The command
channel is abstracted to a map from command text to the error that
exchange returns for it (none = the exchange succeeded). -/

/-- ConfigError has one constructor per error-construction site of
SetSweepConfig, carrying the data each fmt.Errorf interpolates. -/
inductive ConfigError where
  | startBelowMin (startHz : Int) (minHz : ℚ) (hw : String)
  | stopAboveMax (stopHz : Int) (maxHz : ℚ) (hw : String)
  | tooManyPoints (points maxPoints : Int) (hw : String)
  | commandFailedV2 (orig : String)
  | commandFailedStd (orig : String)
  deriving DecidableEq

/-- isOutOfRange is true for the three bound-violation errors of
SetSweepConfig and false for the command-failure errors. -/
def ConfigError.isOutOfRange : ConfigError → Bool
  | .startBelowMin _ _ _ => true
  | .stopAboveMax _ _ _ => true
  | .tooManyPoints _ _ _ => true
  | .commandFailedV2 _ => false
  | .commandFailedStd _ => false

/-- applyFormat substitutes each %d of the template with the next
argument in decimal (the only verb the source uses). -/
def applyFormat : List Char → List Int → List Char
  | [], _ => []
  | '%' :: 'd' :: t, v :: vs => (toString v).data ++ applyFormat t vs
  | c :: t, vs => c :: applyFormat t vs

/-- goSprintf mirrors fmt.Sprintf restricted to the %d verb. -/
def goSprintf (tmpl : String) (args : List Int) : String :=
  ⟨applyFormat tmpl.data args⟩

/-- isV2Family is true exactly for the variants of the V2 case of the
SetSweepConfig switch (SAA2 and LiteVNA take the default branch). -/
def isV2Family : HardwareVariant → Bool
  | .V2 => true
  | .V2Plus => true
  | .V2Plus4 => true
  | _ => false

/-- setSweepConfig mirrors Device.SetSweepConfig: validate start, stop
and points in that order against the active HardwareInfo, then send the
formatted sweep command, falling back to three scoped commands before
reporting failure wrapping the original error. -/
def setSweepConfig (info : HardwareInfo) (variant : HardwareVariant)
    (exec : String → Option String) (startHz stopHz points : Int) : Option ConfigError :=
  if (startHz : ℚ) < info.Range.MinHz then
    some (.startBelowMin startHz info.Range.MinHz (variantString variant))
  else if (stopHz : ℚ) > info.Range.MaxHz then
    some (.stopAboveMax stopHz info.Range.MaxHz (variantString variant))
  else if points > info.MaxSweepPoints then
    some (.tooManyPoints points info.MaxSweepPoints (variantString variant))
  else
    let cmd := goSprintf info.Commands.SweepCommand [startHz, stopHz, points]
    if isV2Family variant then
      match exec cmd with
      | none => none
      | some e =>
        match exec (goSprintf "sweep start %d" [startHz]) with
        | none => none
        | some _ =>
          match exec (goSprintf "sweep stop %d" [stopHz]) with
          | none => none
          | some _ =>
            match exec (goSprintf "sweep points %d" [points]) with
            | none => none
            | some _ => some (.commandFailedV2 e)
    else
      match exec cmd with
      | none => none
      | some e =>
        match exec (goSprintf "start %d" [startHz]) with
        | none => none
        | some _ =>
          match exec (goSprintf "stop %d" [stopHz]) with
          | none => none
          | some _ =>
            match exec (goSprintf "points %d" [points]) with
            | none => none
            | some _ => some (.commandFailedStd e)

/-! Model of Device.RunSweep (nanovna.go lines 553-666). The three
exchanges (frequency query, S11 data query, S21 data query) are passed
in as results: Except.error is a failed exchange, Except.ok its response
text. Complex samples are pairs of parsed float values; complex(0, 0) is
the zero placeholder. -/

/-- zeroC is the complex(0, 0) placeholder sample. -/
def zeroC : GoFloat × GoFloat := (.num 0, .num 0)

/-- SweepData mirrors the Go result struct. -/
structure SweepData where
  Frequencies : List GoFloat
  S11 : List (GoFloat × GoFloat)
  S21 : List (GoFloat × GoFloat)
  deriving DecidableEq

/-- SweepError has one constructor per error-return site of RunSweep. -/
inductive SweepError where
  | failedFreq (e : String)
  | failedS11 (e : String)
  | noData
  deriving DecidableEq

/-- parseFreqLine is the per-line body of the frequency loop: trim, skip
blank lines, the command echo, prompt-marker lines and lines holding a
question mark, else keep the line when it parses as a float. -/
def parseFreqLine (freqCmd prompt line : String) : Option GoFloat :=
  let line := goTrimSpace line
  if line = "" ∨ line = freqCmd ∨ containsSub line prompt = true ∨ containsSub line "?" = true then
    none
  else parseGoFloat line

/-- parseFreqResp parses a frequency response into the kept samples. -/
def parseFreqResp (resp freqCmd prompt : String) : List GoFloat :=
  (goSplitChar resp '\n').filterMap (parseFreqLine freqCmd prompt)

/-- parseDataLine is the per-line body of the S-parameter loops: trim,
skip blank lines, lines that start with "data", prompt-marker lines and
lines holding a question mark; split the rest on whitespace and keep the
line when it has at least two fields and the first two parse as floats. -/
def parseDataLine (prompt line : String) : Option (GoFloat × GoFloat) :=
  let line := goTrimSpace line
  if line = "" ∨ goStartsWith line "data" = true ∨ containsSub line prompt = true ∨
      containsSub line "?" = true then
    none
  else
    match goFields line with
    | p0 :: p1 :: _ =>
      match parseGoFloat p0, parseGoFloat p1 with
      | some a, some b => some (a, b)
      | _, _ => none
    | _ => none

/-- parseDataResp parses an S-parameter response into the kept samples. -/
def parseDataResp (resp prompt : String) : List (GoFloat × GoFloat) :=
  (goSplitChar resp '\n').filterMap (parseDataLine prompt)

/-- runSweep mirrors Device.RunSweep: parse frequencies and S11, collect
S21 when the capability set supports it (zero placeholders when its
exchange fails), pad S21 to the S11 length, fail when frequencies or S11
are empty, and truncate all three sequences to the shorter of the
frequency and S11 lengths (padding S21 again if it falls short). -/
def runSweep (info : HardwareInfo) (freqR s11R s21R : Except String String) :
    Except SweepError SweepData :=
  match freqR with
  | .error e => .error (.failedFreq e)
  | .ok freqResp =>
    let freqs := parseFreqResp freqResp info.Commands.FreqCommand info.Commands.PromptPattern
    match s11R with
    | .error e => .error (.failedS11 e)
    | .ok s11Resp =>
      let s11 := parseDataResp s11Resp info.Commands.PromptPattern
      let s21a : List (GoFloat × GoFloat) :=
        if info.Capabilities.HasS21 = true ∧ isPortSupported info "S21" = true then
          match s21R with
          | .error _ => List.replicate s11.length zeroC
          | .ok s21Resp => parseDataResp s21Resp info.Commands.PromptPattern
        else []
      let s21b := s21a ++ List.replicate (s11.length - s21a.length) zeroC
      if freqs.length = 0 ∨ s11.length = 0 then .error .noData
      else
        let minLen := min freqs.length s11.length
        .ok
          { Frequencies := freqs.take minLen
            S11 := s11.take minLen
            S21 :=
              if minLen ≤ s21b.length then s21b.take minLen
              else s21b ++ List.replicate (minLen - s21b.length) zeroC }

/-! Model of the Session state and of Open, OpenWithVariant and
Device.DetectVersion (nanovna.go lines 426-494 and 801-868). -/

/-- DeviceState is the mutable per-connection state the claims touch. -/
structure DeviceState where
  version : String
  variant : HardwareVariant
  hardwareInfo : HardwareInfo
  deriving DecidableEq

/-- openDevice is the state Open establishes before any detection. -/
def openDevice : DeviceState :=
  { version := "", variant := .Unknown, hardwareInfo := getHardwareInfo .Unknown }

/-- versionLabel is the version string OpenWithVariant stores per variant. -/
def versionLabel : HardwareVariant → String
  | .V1 => "v1"
  | .VH => "vh"
  | .V2 => "v2"
  | .V2Plus => "v2"
  | .V2Plus4 => "v2"
  | .SAA2 => "v2"
  | .Tinysa => "tinysa"
  | .LiteVNA => "litevna"
  | .Unknown => "unknown"

/-- openWithVariant is the state OpenWithVariant establishes: the forced
variant, its registry entry, and the matching version label. -/
def openWithVariant (v : HardwareVariant) : DeviceState :=
  { openDevice with
      variant := v
      hardwareInfo := getHardwareInfo v
      version := versionLabel v }

/-- classify is the ordered rule table of DetectVersion: the raw probe
response picks a base variant by prefix, the info text (lower-cased for
every substring check) refines it. -/
def classify (response info : String) : String × HardwareVariant :=
  let low := goToLower info
  if goStartsWith response "ch> " = true then
    ("v1",
      if containsSub low "tinysa" = true then .Tinysa
      else if containsSub low "litevna" = true then .LiteVNA
      else .V1)
  else if goStartsWith response "\r\nch> " = true ∨
      goStartsWith response "\r\n?\r\nch> " = true then
    ("vh", if containsSub low "nanovna v1" = true then .V1 else .VH)
  else if goStartsWith response "2" = true ∨ containsSub response "2>" = true then
    ("v2",
      if containsSub low "plus4" = true then .V2Plus4
      else if containsSub low "plus" = true then .V2Plus
      else if containsSub low "saa2" = true then .SAA2
      else .V2)
  else ("unknown", .Unknown)

/-- detectVersion mirrors Device.DetectVersion: it fails before a
transport exists, propagates write and probe-read errors with the state
untouched, and otherwise classifies the probe response and info text,
stores version and variant, always reloads hardwareInfo from the
registry, and reports an unrecognized device when the variant stayed
Unknown. -/
def detectVersion (d : DeviceState) (connected : Bool) (writeErr : Option String)
    (probe : ReadResult) (info : String) : DeviceState × String × Option String :=
  if connected then
    match writeErr with
    | some e => (d, ("", some e))
    | none =>
      match probe with
      | .err e => (d, ("", some e))
      | .chunk response =>
        let p := classify response info
        let d2 : DeviceState :=
          { version := p.1, variant := p.2, hardwareInfo := getHardwareInfo p.2 }
        if p.2 = .Unknown then
          (d2, ("unknown", some ("unrecognized response: " ++ response)))
        else (d2, (p.1, none))
  else (d, ("", some "device not open"))

/-- stateInv is the session invariant: the stored HardwareInfo is the
registry entry of the stored variant. -/
def stateInv (d : DeviceState) : Prop :=
  d.hardwareInfo = getHardwareInfo d.variant

/-- c3reads is a transport stream for a V2-family device: the drain read
(read 0) is an error, the first loop read delivers the V2 prompt "2> ",
the second delivers further text, and later reads time out. -/
def c3reads : ℕ → ReadResult := fun n =>
  if n = 1 then .chunk "2> " else if n = 2 then .chunk "done" else .err "timeout"

/-- c5reads is a transport stream whose every read fails with a
timeout-classified error. -/
def c5reads : ℕ → ReadResult := fun _ => .err "read timeout"

/-- c8exec is a command channel that accepts only the scoped start
command and rejects everything else. -/
def c8exec : String → Option String :=
  fun c => if c = "start 50000" then none else some "boom"

/-- c2data is the sweep result of the spec scenario: two frequency
lines, one S11 line, truncation to length one, one zero S21 sample. -/
def c2data : SweepData :=
  { Frequencies := [.num (mkRat 1000000 1)]
    S11 := [(.num (mkRat 1 2), .num (mkRat (-1) 5))]
    S21 := [zeroC] }

end NanoVNA

deriving instance DecidableEq for Except

namespace NanoVNA

/-- C7: for every declared HardwareVariant, getHardwareInfo is a total
deterministic lookup whose result satisfies MinHz ≤ MaxHz, a positive
sweep-point limit and a non-empty supported-ports list. -/
theorem getHardwareInfo_total_bounds (v : HardwareVariant) :
    (getHardwareInfo v).Range.MinHz ≤ (getHardwareInfo v).Range.MaxHz ∧
    0 < (getHardwareInfo v).MaxSweepPoints ∧
    (getHardwareInfo v).SupportedPorts ≠ [] := by
  cases v <;> exact ⟨by decide, by decide, by decide⟩

/-- C4: the registry switch has no case for SAA2 or LiteVNA, so both fall
to the default branch: the returned entry is the conservative Unknown
record and its Variant field is Unknown, not the requested variant. -/
theorem getHardwareInfo_missing_saa2_litevna :
    getHardwareInfo .SAA2 = getHardwareInfo .Unknown ∧
    getHardwareInfo .LiteVNA = getHardwareInfo .Unknown ∧
    (getHardwareInfo .SAA2).Variant ≠ .SAA2 ∧
    (getHardwareInfo .LiteVNA).Variant ≠ .LiteVNA := by
  exact ⟨rfl, rfl, by decide, by decide⟩

/-- C3: the read loop of sendCommand stops on the hardcoded literal "ch>"
in the latest chunk, not on the active PromptPattern in the accumulated
text: with the V2 prompt "2>" delivered in the first chunk, the loop
keeps reading and accumulates the following chunk too. -/
theorem sendCommand_ignores_variant_prompt :
    (getHardwareInfo .V2).Commands.PromptPattern = "2>" ∧
    containsSub "2> " "2>" = true ∧
    sendCommand true none c3reads "freq" = ("2> done", none) := by
  exact ⟨rfl, by decide, by decide⟩

/-- C10: the session invariant hardwareInfo = getHardwareInfo variant is
established by Open at variant Unknown, by OpenWithVariant at the forced
variant, and preserved by DetectVersion on every path; on the
unrecognized-device path the session holds variant Unknown with the
conservative default entry and an error is reported. -/
theorem session_state_invariant :
    (openDevice.variant = .Unknown ∧ stateInv openDevice) ∧
    (∀ v : HardwareVariant, (openWithVariant v).variant = v ∧ stateInv (openWithVariant v)) ∧
    (∀ (d : DeviceState) (connected : Bool) (writeErr : Option String)
        (probe : ReadResult) (info : String), stateInv d →
      stateInv (detectVersion d connected writeErr probe info).1) ∧
    (∀ (d : DeviceState) (response info : String), (classify response info).2 = .Unknown →
      (detectVersion d true none (.chunk response) info).1.variant = .Unknown ∧
      (detectVersion d true none (.chunk response) info).1.hardwareInfo =
        getHardwareInfo .Unknown ∧
      (detectVersion d true none (.chunk response) info).2.2 ≠ none) := by
  refine ⟨⟨rfl, rfl⟩, fun v => ⟨rfl, rfl⟩, ?_, ?_⟩
  · intro d connected writeErr probe info h
    cases connected
    · exact h
    · cases writeErr
      · cases probe with
        | err e => exact h
        | chunk response =>
          simp only [detectVersion, if_true]
          split <;> exact rfl
      · exact h
  · intro d response info h
    unfold detectVersion
    simp only [if_true]
    rw [if_pos h]
    exact ⟨h, by rw [h], by simp⟩

/-- C6: DetectVersion applies refinement rules in specificity order: on
the V2 branch, info text containing plus4 (hence also plus) resolves to
V2Plus4 and never V2Plus; and the spec scenario of a probe response of
exactly "ch> " with info text containing litevna resolves to LiteVNA. -/
theorem detectVersion_specificity :
    (∀ response info : String,
      goStartsWith response "ch> " = false →
      goStartsWith response "\r\nch> " = false →
      goStartsWith response "\r\n?\r\nch> " = false →
      (goStartsWith response "2" = true ∨ containsSub response "2>" = true) →
      containsSub (goToLower info) "plus" = true →
      containsSub (goToLower info) "plus4" = true →
      (classify response info).2 = .V2Plus4) ∧
    classify "ch> " "litevna" = ("v1", .LiteVNA) := by
  constructor
  · intro response info h1 h2 h3 h4 _h5 h6
    simp only [classify, h1, h2, h3, h6]
    simp [h4]
  · decide

end NanoVNA

namespace NanoVNA

/-- chunksText is the text a run of chunk reads delivers, starting at
read i for k reads (used to state the exhausted-budget behaviour). -/
def chunksText (reads : ℕ → ReadResult) : ℕ → ℕ → String
  | _, 0 => ""
  | i, k + 1 =>
    match reads i with
    | .chunk c => c ++ chunksText reads (i + 1) k
    | .err _ => ""

/-- sendLoop_all_chunks: when every read delivers a chunk that does not
contain the hardcoded prompt "ch>", the loop consumes its whole budget
and returns the accumulated text without an error. -/
theorem sendLoop_all_chunks (reads : ℕ → ReadResult)
    (H : ∀ j, ∃ c, reads j = .chunk c ∧ containsSub c "ch>" = false) :
    ∀ (k i : ℕ) (acc : String),
      sendLoop reads k i acc = (acc ++ chunksText reads i k, none) := by
  intro k
  induction k with
  | zero => intro i acc; simp [sendLoop, chunksText]
  | succ k ih =>
    intro i acc
    obtain ⟨c, hc, hnp⟩ := H i
    have key : sendLoop reads (k + 1) i acc =
        if 0 < c.length then
          if containsSub c "ch>" = true then (acc ++ c, none)
          else sendLoop reads k (i + 1) (acc ++ c)
        else sendLoop reads k (i + 1) acc := by
      rw [sendLoop, hc]
    rw [key]
    by_cases hcl : 0 < c.length
    · rw [if_pos hcl, if_neg (by simp [hnp]), ih]
      simp [chunksText, hc, String.append_assoc]
    · rw [if_neg hcl, ih]
      have hzero : c.length = 0 := Nat.eq_zero_of_le_zero (Nat.not_lt.mp hcl)
      have hc0 : c = "" := by
        cases c with
        | mk l =>
          cases l with
          | nil => rfl
          | cons a t => simp [String.length] at hzero
      subst hc0
      simp [chunksText, hc]

/-- C5: sendCommand fails with the not-connected error before a transport
exists; a timeout-classified read error with bytes already accumulated
ends the loop normally returning the accumulated text, while a timeout
with nothing accumulated propagates as the error; and a full budget of
promptless chunk reads returns the accumulated text without an error. -/
theorem sendCommand_error_paths :
    (∀ (writeErr : Option String) (reads : ℕ → ReadResult) (cmd : String),
      sendCommand false writeErr reads cmd = ("", some "device not open")) ∧
    (∀ (reads : ℕ → ReadResult) (k i : ℕ) (acc : String) (e : String),
      reads i = .err e → containsSub e "timeout" = true → 0 < acc.length →
      sendLoop reads (k + 1) i acc = (acc, none)) ∧
    (∀ (reads : ℕ → ReadResult) (k i : ℕ) (e : String),
      reads i = .err e → containsSub e "timeout" = true →
      sendLoop reads (k + 1) i "" = ("", some e)) ∧
    (∀ (reads : ℕ → ReadResult) (i : ℕ) (acc : String),
      (∀ j, ∃ c, reads j = .chunk c ∧ containsSub c "ch>" = false) →
      sendLoop reads maxAttempts i acc = (acc ++ chunksText reads i maxAttempts, none)) := by
  refine ⟨fun writeErr reads cmd => rfl, ?_, ?_, ?_⟩
  · intro reads k i acc e he ht hl
    have key : sendLoop reads (k + 1) i acc =
        if containsSub e "timeout" = true ∧ 0 < acc.length then (acc, none)
        else (acc, some e) := by
      rw [sendLoop, he]
    rw [key, if_pos ⟨ht, hl⟩]
  · intro reads k i e he ht
    have key : sendLoop reads (k + 1) i "" =
        if containsSub e "timeout" = true ∧ 0 < "".length then ("", none)
        else ("", some e) := by
      rw [sendLoop, he]
    rw [key, if_neg (by simp)]
  · intro reads i acc H
    exact sendLoop_all_chunks reads H maxAttempts i acc

/-- C5 witness: the timeout-with-data rule applied to a concrete stream
whose first read fails with a timeout while one byte is accumulated. -/
theorem sendCommand_error_paths_witness :
    sendLoop c5reads (0 + 1) 0 "x" = ("x", none) :=
  sendCommand_error_paths.2.1 c5reads 0 0 "x" "read timeout" rfl (by decide) (by decide)

end NanoVNA

namespace NanoVNA

/-- setSweepConfig_no_violation: with all three bounds satisfied the
result is success or one of the two command-failure errors, never an
out-of-range error. -/
theorem setSweepConfig_no_violation (info : HardwareInfo) (v : HardwareVariant)
    (exec : String → Option String) (startHz stopHz points : Int)
    (h1 : ¬ (startHz : ℚ) < info.Range.MinHz) (h2 : ¬ (stopHz : ℚ) > info.Range.MaxHz)
    (h3 : ¬ points > info.MaxSweepPoints) (err : ConfigError)
    (hres : setSweepConfig info v exec startHz stopHz points = some err) :
    err.isOutOfRange = false := by
  unfold setSweepConfig at hres
  rw [if_neg h1, if_neg h2, if_neg h3] at hres
  simp only [] at hres
  split at hres <;> (repeat' split at hres) <;>
    first
      | exact Option.noConfusion hres
      | (rw [← Option.some.inj hres]; rfl)

/-- C1: setSweepConfig reports an out-of-range error exactly when a bound
is violated; the bounds are checked start, stop, points in that order and
the first violation is the one reported; with all bounds satisfied and
the primary sweep command accepted the call succeeds; and a V1 session
rejects configure(10, 900000000, 101) for its start bound. -/
theorem setSweepConfig_bounds (info : HardwareInfo) (v : HardwareVariant)
    (exec : String → Option String) (startHz stopHz points : Int) :
    ((∃ err, setSweepConfig info v exec startHz stopHz points = some err ∧
        err.isOutOfRange = true) ↔
      ((startHz : ℚ) < info.Range.MinHz ∨ (stopHz : ℚ) > info.Range.MaxHz ∨
        points > info.MaxSweepPoints)) ∧
    ((startHz : ℚ) < info.Range.MinHz →
      setSweepConfig info v exec startHz stopHz points =
        some (.startBelowMin startHz info.Range.MinHz (variantString v))) ∧
    (¬ (startHz : ℚ) < info.Range.MinHz → (stopHz : ℚ) > info.Range.MaxHz →
      setSweepConfig info v exec startHz stopHz points =
        some (.stopAboveMax stopHz info.Range.MaxHz (variantString v))) ∧
    (¬ (startHz : ℚ) < info.Range.MinHz → ¬ (stopHz : ℚ) > info.Range.MaxHz →
      points > info.MaxSweepPoints →
      setSweepConfig info v exec startHz stopHz points =
        some (.tooManyPoints points info.MaxSweepPoints (variantString v))) ∧
    (¬ (startHz : ℚ) < info.Range.MinHz → ¬ (stopHz : ℚ) > info.Range.MaxHz →
      ¬ points > info.MaxSweepPoints →
      exec (goSprintf info.Commands.SweepCommand [startHz, stopHz, points]) = none →
      setSweepConfig info v exec startHz stopHz points = none) := by
  have hcase1 : (startHz : ℚ) < info.Range.MinHz →
      setSweepConfig info v exec startHz stopHz points =
        some (.startBelowMin startHz info.Range.MinHz (variantString v)) := by
    intro h1
    unfold setSweepConfig
    rw [if_pos h1]
  have hcase2 : ¬ (startHz : ℚ) < info.Range.MinHz → (stopHz : ℚ) > info.Range.MaxHz →
      setSweepConfig info v exec startHz stopHz points =
        some (.stopAboveMax stopHz info.Range.MaxHz (variantString v)) := by
    intro h1 h2
    unfold setSweepConfig
    rw [if_neg h1, if_pos h2]
  have hcase3 : ¬ (startHz : ℚ) < info.Range.MinHz → ¬ (stopHz : ℚ) > info.Range.MaxHz →
      points > info.MaxSweepPoints →
      setSweepConfig info v exec startHz stopHz points =
        some (.tooManyPoints points info.MaxSweepPoints (variantString v)) := by
    intro h1 h2 h3
    unfold setSweepConfig
    rw [if_neg h1, if_neg h2, if_pos h3]
  refine ⟨?_, hcase1, hcase2, hcase3, ?_⟩
  · constructor
    · rintro ⟨err, hres, hoor⟩
      by_cases h1 : (startHz : ℚ) < info.Range.MinHz
      · exact Or.inl h1
      by_cases h2 : (stopHz : ℚ) > info.Range.MaxHz
      · exact Or.inr (Or.inl h2)
      by_cases h3 : points > info.MaxSweepPoints
      · exact Or.inr (Or.inr h3)
      exact absurd hoor (by
        rw [setSweepConfig_no_violation info v exec startHz stopHz points h1 h2 h3 err hres]
        simp)
    · rintro (h1 | h2 | h3)
      · exact ⟨_, hcase1 h1, rfl⟩
      · by_cases h1 : (startHz : ℚ) < info.Range.MinHz
        · exact ⟨_, hcase1 h1, rfl⟩
        · exact ⟨_, hcase2 h1 h2, rfl⟩
      · by_cases h1 : (startHz : ℚ) < info.Range.MinHz
        · exact ⟨_, hcase1 h1, rfl⟩
        by_cases h2 : (stopHz : ℚ) > info.Range.MaxHz
        · exact ⟨_, hcase2 h1 h2, rfl⟩
        · exact ⟨_, hcase3 h1 h2 h3, rfl⟩
  · intro h1 h2 h3 hexec
    unfold setSweepConfig
    rw [if_neg h1, if_neg h2, if_neg h3]
    split <;> simp only [hexec]

/-- C1 witness: the V1 scenario configure(10, 900000000, 101) is rejected
with the start-below-minimum error. -/
theorem setSweepConfig_bounds_witness :
    setSweepConfig (getHardwareInfo .V1) .V1 (fun _ => none) 10 900000000 101 =
      some (.startBelowMin 10 50000 "NanoVNA v1") :=
  (setSweepConfig_bounds (getHardwareInfo .V1) .V1 (fun _ => none) 10 900000000 101).2.1
    (by norm_num [getHardwareInfo])

end NanoVNA

namespace NanoVNA

/-- C8: with bounds satisfied and the primary sweep command rejected,
setSweepConfig attempts the three scoped fallback commands in sequence
(sweep start / sweep stop / sweep points for the V2 switch group, start /
stop / points for every other variant); it succeeds exactly when some
fallback is accepted, and returns the command-failure error wrapping the
original primary error exactly when all three fallbacks are rejected. -/
theorem setSweepConfig_fallbacks (info : HardwareInfo) (v : HardwareVariant)
    (exec : String → Option String) (startHz stopHz points : Int) (e : String)
    (h1 : ¬ (startHz : ℚ) < info.Range.MinHz) (h2 : ¬ (stopHz : ℚ) > info.Range.MaxHz)
    (h3 : ¬ points > info.MaxSweepPoints)
    (hp : exec (goSprintf info.Commands.SweepCommand [startHz, stopHz, points]) = some e) :
    (setSweepConfig info v exec startHz stopHz points = none ↔
      (exec (if isV2Family v = true then goSprintf "sweep start %d" [startHz]
             else goSprintf "start %d" [startHz]) = none ∨
       exec (if isV2Family v = true then goSprintf "sweep stop %d" [stopHz]
             else goSprintf "stop %d" [stopHz]) = none ∨
       exec (if isV2Family v = true then goSprintf "sweep points %d" [points]
             else goSprintf "points %d" [points]) = none)) ∧
    (setSweepConfig info v exec startHz stopHz points =
        some (if isV2Family v = true then .commandFailedV2 e else .commandFailedStd e) ↔
      (exec (if isV2Family v = true then goSprintf "sweep start %d" [startHz]
             else goSprintf "start %d" [startHz]) ≠ none ∧
       exec (if isV2Family v = true then goSprintf "sweep stop %d" [stopHz]
             else goSprintf "stop %d" [stopHz]) ≠ none ∧
       exec (if isV2Family v = true then goSprintf "sweep points %d" [points]
             else goSprintf "points %d" [points]) ≠ none)) := by
  unfold setSweepConfig
  rw [if_neg h1, if_neg h2, if_neg h3]
  by_cases hv : isV2Family v = true
  · simp only [hv, if_true, hp]
    rcases hA : exec (goSprintf "sweep start %d" [startHz]) with _ | eA <;>
      rcases hB : exec (goSprintf "sweep stop %d" [stopHz]) with _ | eB <;>
        rcases hC : exec (goSprintf "sweep points %d" [points]) with _ | eC <;>
          simp [hA, hB, hC]
  · simp only [hv, Bool.false_eq_true, if_false, hp]
    rcases hA : exec (goSprintf "start %d" [startHz]) with _ | eA <;>
      rcases hB : exec (goSprintf "stop %d" [stopHz]) with _ | eB <;>
        rcases hC : exec (goSprintf "points %d" [points]) with _ | eC <;>
          simp [hA, hB, hC]

/-- C8 witness: a V1 session whose channel rejects the primary sweep
command but accepts the scoped start fallback succeeds overall. -/
theorem setSweepConfig_fallbacks_witness :
    setSweepConfig (getHardwareInfo .V1) .V1 c8exec 50000 900000000 101 = none :=
  ((setSweepConfig_fallbacks (getHardwareInfo .V1) .V1 c8exec 50000 900000000 101 "boom"
      (by norm_num [getHardwareInfo]) (by norm_num [getHardwareInfo])
      (by norm_num [getHardwareInfo]) (by decide)).1).mpr (Or.inl (by decide))

end NanoVNA

namespace NanoVNA

/-- padTake_length: the final S21 adjustment of runSweep (truncate when
long enough, pad with zero samples otherwise) always yields length m. -/
theorem padTake_length (l : List (GoFloat × GoFloat)) (m : ℕ) :
    (if m ≤ l.length then l.take m else l ++ List.replicate (m - l.length) zeroC).length = m := by
  split
  · rw [List.length_take]
    exact min_eq_left (by assumption)
  · rw [List.length_append, List.length_replicate]
    omega

/-- C2: whenever runSweep succeeds, the three result sequences share one
length, the minimum of the parsed frequency count and the parsed S11
count; and when either parsed sequence is empty it fails with noData. -/
theorem runSweep_length_inv (info : HardwareInfo) (fr s1 : String)
    (s21R : Except String String) :
    (∀ d : SweepData, runSweep info (.ok fr) (.ok s1) s21R = .ok d →
      d.Frequencies.length =
        min (parseFreqResp fr info.Commands.FreqCommand info.Commands.PromptPattern).length
          (parseDataResp s1 info.Commands.PromptPattern).length ∧
      d.S11.length =
        min (parseFreqResp fr info.Commands.FreqCommand info.Commands.PromptPattern).length
          (parseDataResp s1 info.Commands.PromptPattern).length ∧
      d.S21.length =
        min (parseFreqResp fr info.Commands.FreqCommand info.Commands.PromptPattern).length
          (parseDataResp s1 info.Commands.PromptPattern).length) ∧
    ((parseFreqResp fr info.Commands.FreqCommand info.Commands.PromptPattern = [] ∨
      parseDataResp s1 info.Commands.PromptPattern = []) →
      runSweep info (.ok fr) (.ok s1) s21R = .error .noData) := by
  constructor
  · intro d hd
    simp only [runSweep] at hd
    by_cases hemp :
        (parseFreqResp fr info.Commands.FreqCommand info.Commands.PromptPattern).length = 0 ∨
        (parseDataResp s1 info.Commands.PromptPattern).length = 0
    · rw [if_pos hemp] at hd
      exact absurd hd (by simp)
    · rw [if_neg hemp] at hd
      rw [← Except.ok.inj hd]
      refine ⟨?_, ?_, ?_⟩
      · rw [List.length_take]
        exact min_eq_left (min_le_left _ _)
      · rw [List.length_take]
        exact min_eq_left (min_le_right _ _)
      · exact padTake_length _ _
  · intro h
    simp only [runSweep]
    rw [if_pos (h.imp (fun h1 => by rw [h1]; rfl) (fun h2 => by rw [h2]; rfl))]

/-- C2 witness: the spec scenario with two frequency lines and one S11
line truncates to length one, padding S21 with one zero sample. -/
theorem runSweep_length_inv_witness :
    c2data.Frequencies.length =
      min (parseFreqResp "1000000\n2000000" (getHardwareInfo .V1).Commands.FreqCommand
            (getHardwareInfo .V1).Commands.PromptPattern).length
        (parseDataResp "0.5 -0.2" (getHardwareInfo .V1).Commands.PromptPattern).length ∧
    c2data.S11.length =
      min (parseFreqResp "1000000\n2000000" (getHardwareInfo .V1).Commands.FreqCommand
            (getHardwareInfo .V1).Commands.PromptPattern).length
        (parseDataResp "0.5 -0.2" (getHardwareInfo .V1).Commands.PromptPattern).length ∧
    c2data.S21.length =
      min (parseFreqResp "1000000\n2000000" (getHardwareInfo .V1).Commands.FreqCommand
            (getHardwareInfo .V1).Commands.PromptPattern).length
        (parseDataResp "0.5 -0.2" (getHardwareInfo .V1).Commands.PromptPattern).length :=
  (runSweep_length_inv (getHardwareInfo .V1) "1000000\n2000000" "0.5 -0.2" (.error "x")).1
    c2data (by decide)

/-- C9: when the active capability set has HasS21 false, every entry of
the S21 sequence of a successful runSweep result is the zero complex
placeholder. -/
theorem runSweep_s21_zero (info : HardwareInfo) (freqR s11R s21R : Except String String)
    (d : SweepData) (z : GoFloat × GoFloat) (hs : info.Capabilities.HasS21 = false)
    (hd : runSweep info freqR s11R s21R = .ok d) (hz : z ∈ d.S21) : z = zeroC := by
  cases freqR with
  | error e => exact absurd hd (by simp [runSweep])
  | ok fr =>
  cases s11R with
  | error e => exact absurd hd (by simp [runSweep])
  | ok s1 =>
  simp only [runSweep, hs, Bool.false_eq_true, false_and, if_false, reduceIte,
    List.nil_append, List.length_nil, Nat.sub_zero] at hd
  by_cases hemp :
      (parseFreqResp fr info.Commands.FreqCommand info.Commands.PromptPattern).length = 0 ∨
      (parseDataResp s1 info.Commands.PromptPattern).length = 0
  · rw [if_pos hemp] at hd
    exact absurd hd (by simp)
  · rw [if_neg hemp] at hd
    rw [← Except.ok.inj hd] at hz
    simp only [] at hz
    split at hz
    · exact List.eq_of_mem_replicate (List.take_subset _ _ hz)
    · rcases List.mem_append.mp hz with h | h <;> exact List.eq_of_mem_replicate h

/-- C9 witness: a TinySA sweep (no S21 capability) yields a zero S21
sample; the rule applied at that concrete run and sample. -/
theorem runSweep_s21_zero_witness : zeroC = zeroC :=
  runSweep_s21_zero (getHardwareInfo .Tinysa) (.ok "1000000") (.ok "2 3") (.ok "zz")
    { Frequencies := [.num (mkRat 1000000 1)]
      S11 := [(.num (mkRat 2 1), .num (mkRat 3 1))]
      S21 := [zeroC] } zeroC
    rfl (by decide) (by decide)

end NanoVNA

namespace NanoVNA

/-- C6 witness: the specificity rule applied at the concrete V2 probe
response "2> " with info text containing both plus and plus4. -/
theorem detectVersion_specificity_witness :
    (classify "2> " "plus4x").2 = .V2Plus4 :=
  detectVersion_specificity.1 "2> " "plus4x" (by decide) (by decide) (by decide)
    (Or.inl (by decide)) (by decide) (by decide)

/-- C10 witness: invariant preservation applied to a fresh session
running detection against a concrete probe and info text. -/
theorem session_state_invariant_witness :
    stateInv (detectVersion openDevice true none (.chunk "ch> ") "litevna").1 :=
  session_state_invariant.2.2.1 openDevice true none (.chunk "ch> ") "litevna" rfl

end NanoVNA
